import Mathlib

/-!
Verification of the file-selection/validation layer and the out-of-process
visualization launcher of the PyANSYS generic GUI repository, as a shallow
embedding in Lean 4.

The embedding models:
- `FileManager.validate_files` (src/file_manager.py), together with the
  `os.path.splitext` / `os.path.basename` helpers it relies on and the single
  batched warning dialog it shows;
- `ResultViewer.open_interactive`, `create_von_mises_script`,
  `create_total_deformation_script` and `run_script` (src/result_viewer.py);
- `MechanicalViewer.launch_interactive_viewer` completion reporting
  (src/mechanical_viewer.py);
- the `interactive_worker.py` argument check and the `launch.py` entry point.

Filesystem existence is modelled as a boolean oracle `fs : String → Bool`
(the code performs a single `os.path.exists` query per path); process
execution is modelled by its observable outcome (exit code, captured text,
or a raised exception).
-/

/-- Model of `str.rfind`: index of the last occurrence of `c` in the list,
`-1` when absent (auxiliary recursion carrying the running index and best hit). -/
def lastIndexOfAux (c : Char) : List Char → Nat → Int → Int
  | [], _, best => best
  | x :: xs, i, best => lastIndexOfAux c xs (i + 1) (if x = c then (i : Int) else best)

/-- Model of `str.rfind`, as used by `posixpath.splitext` and `posixpath.basename`. -/
def lastIndexOf (c : Char) (l : List Char) : Int :=
  lastIndexOfAux c l 0 (-1)

/-- Model of `os.path.splitext` (posix rules): split off the final extension,
the part from the last dot of the basename onwards, except when the basename
consists only of leading dots up to that dot. -/
def splitext (p : String) : String × String :=
  let l := p.data
  let sepIdx := lastIndexOf '/' l
  let dotIdx := lastIndexOf '.' l
  if sepIdx < dotIdx then
    let fnameStart := (sepIdx + 1).toNat
    let dotNat := dotIdx.toNat
    if ((l.drop fnameStart).take (dotNat - fnameStart)).any (fun c => c != '.') then
      (String.mk (l.take dotNat), String.mk (l.drop dotNat))
    else (p, "")
  else (p, "")

/-- Model of `os.path.basename` (posix rules): everything after the last slash. -/
def basename (p : String) : String :=
  String.mk ((p.data.reverse.takeWhile (fun c => c != '/')).reverse)

/-- Model of Python `str.lower()` (per-character ASCII lowering over the
underlying character list). -/
def str_lower (s : String) : String := String.mk (s.data.map Char.toLower)

/-- The acceptance predicate applied to each path by `FileManager.validate_files`:
the path exists on the filesystem and its final extension, lowercased, is in the
supported-extension list. -/
def file_valid (fs : String → Bool) (exts : List String) (f : String) : Bool :=
  fs f && exts.contains (str_lower (splitext f).2)

/-- Model of `FileManager.validate_files` (src/file_manager.py, lines 46-68):
walk the input paths in order; a path that exists and whose lowercased final
extension is in `exts` goes to the valid list, any other path goes to the
invalid list, both in input order.  Returns `(valid_files, invalid_files)`. -/
def validate_files (fs : String → Bool) (exts : List String) : List String → List String × List String
  | [] => ([], [])
  | f :: rest =>
    if fs f then
      if exts.contains (str_lower (splitext f).2) then
        (f :: (validate_files fs exts rest).1, (validate_files fs exts rest).2)
      else
        ((validate_files fs exts rest).1, f :: (validate_files fs exts rest).2)
    else
      ((validate_files fs exts rest).1, f :: (validate_files fs exts rest).2)

/-- `validate_files` computes the two filters of the acceptance predicate. -/
theorem validate_files_eq_filter (fs : String → Bool) (exts : List String) (files : List String) :
    validate_files fs exts files
      = (files.filter (file_valid fs exts), files.filter (fun f => ! file_valid fs exts f)) := by
  induction files with
  | nil => rfl
  | cons f rest ih =>
    by_cases h1 : fs f = true
    · by_cases h2 : str_lower (splitext f).2 ∈ exts
      · simp [validate_files, ih, List.filter_cons, file_valid, h1, h2, List.elem_iff]
      · simp [validate_files, ih, List.filter_cons, file_valid, h1, h2, List.elem_iff]
    · have h1' : fs f = false := by simpa using h1
      simp [validate_files, ih, List.filter_cons, file_valid, h1', List.elem_iff]

/-- Sum of the lengths of complementary filters. -/
theorem length_filter_add_length_filter_not (p : String → Bool) (l : List String) :
    (l.filter p).length + (l.filter (fun f => ! p f)).length = l.length := by
  induction l with
  | nil => rfl
  | cons x xs ih =>
    by_cases h : p x = true <;>
      simp [List.filter_cons, h, ih] <;> omega

/-- Unfolding of the acceptance predicate into its two conjuncts. -/
theorem file_valid_iff (fs : String → Bool) (exts : List String) (f : String) :
    file_valid fs exts f = true ↔ (fs f = true ∧ str_lower (splitext f).2 ∈ exts) := by
  simp [file_valid, List.elem_iff]

/-- Claim C1: a path is placed in the accepted (valid) output of
`validate_files` iff it exists on the filesystem and its final extension,
lowercased, is a member of the supported extension list; a path failing either
check lands in the rejected output. -/
theorem validate_files_accepts_iff (fs : String → Bool) (exts : List String)
    (files : List String) (f : String) (hf : f ∈ files) :
    (f ∈ (validate_files fs exts files).1
      ↔ (fs f = true ∧ str_lower (splitext f).2 ∈ exts))
    ∧ (¬ (fs f = true ∧ str_lower (splitext f).2 ∈ exts)
        → f ∈ (validate_files fs exts files).2 ∧ f ∉ (validate_files fs exts files).1) := by
  rw [validate_files_eq_filter]
  constructor
  · rw [List.mem_filter, file_valid_iff]
    simp [hf]
  · intro hnot
    have hv : file_valid fs exts f = false :=
      Bool.eq_false_iff.mpr (fun h => hnot ((file_valid_iff fs exts f).mp h))
    constructor
    · exact List.mem_filter.mpr ⟨hf, by simp [hv]⟩
    · intro hmem
      rw [List.mem_filter, hv] at hmem
      simp at hmem

/-- Closed witness for C1: with a filesystem containing exactly `a.rst`, the
rule `[".rst"]` accepts `a.rst` and rejects `b.txt`. -/
theorem validate_files_accepts_iff_witness :
    ("a.rst" ∈ (validate_files (fun p => p == "a.rst") [".rst"] ["a.rst", "b.txt"]).1
      ↔ ((fun p => p == "a.rst") "a.rst" = true ∧ str_lower (splitext "a.rst").2 ∈ [".rst"]))
    ∧ ("b.txt" ∈ (validate_files (fun p => p == "a.rst") [".rst"] ["a.rst", "b.txt"]).2
        ∧ "b.txt" ∉ (validate_files (fun p => p == "a.rst") [".rst"] ["a.rst", "b.txt"]).1) :=
  ⟨(validate_files_accepts_iff (fun p => p == "a.rst") [".rst"] ["a.rst", "b.txt"] "a.rst"
      (by decide)).1,
   (validate_files_accepts_iff (fun p => p == "a.rst") [".rst"] ["a.rst", "b.txt"] "b.txt"
      (by decide)).2 (by decide)⟩

/-- Claim C2: `validate_files` partitions its input: the lengths of the valid
and invalid lists sum to the input length, the two lists are disjoint, and
every input path appears in exactly one of them. -/
theorem validate_files_partitions (fs : String → Bool) (exts : List String) (files : List String) :
    (validate_files fs exts files).1.length + (validate_files fs exts files).2.length
        = files.length
    ∧ (∀ f, f ∈ (validate_files fs exts files).1 → f ∉ (validate_files fs exts files).2)
    ∧ (∀ f, f ∈ files →
        (f ∈ (validate_files fs exts files).1 ∧ f ∉ (validate_files fs exts files).2)
        ∨ (f ∈ (validate_files fs exts files).2 ∧ f ∉ (validate_files fs exts files).1)) := by
  rw [validate_files_eq_filter]
  refine ⟨length_filter_add_length_filter_not _ _, ?_, ?_⟩
  · intro f hv hi
    rw [List.mem_filter] at hv hi
    rw [hv.2] at hi
    simp at hi
  · intro f hf
    by_cases h : file_valid fs exts f = true
    · exact Or.inl ⟨List.mem_filter.mpr ⟨hf, h⟩,
        fun hi => by rw [List.mem_filter] at hi; rw [h] at hi; simp at hi⟩
    · refine Or.inr ⟨List.mem_filter.mpr ⟨hf, by simp [h]⟩,
        fun hv => h (List.mem_filter.mp hv).2⟩

/-- Closed witness for C2 at a concrete input list and rule. -/
theorem validate_files_partitions_witness :
    (validate_files (fun p => p == "a.rst") [".rst"] ["a.rst", "b.txt", "c.rst"]).1.length
        + (validate_files (fun p => p == "a.rst") [".rst"] ["a.rst", "b.txt", "c.rst"]).2.length
        = (["a.rst", "b.txt", "c.rst"] : List String).length
    ∧ (∀ f, f ∈ (validate_files (fun p => p == "a.rst") [".rst"] ["a.rst", "b.txt", "c.rst"]).1
        → f ∉ (validate_files (fun p => p == "a.rst") [".rst"] ["a.rst", "b.txt", "c.rst"]).2)
    ∧ (∀ f, f ∈ (["a.rst", "b.txt", "c.rst"] : List String) →
        (f ∈ (validate_files (fun p => p == "a.rst") [".rst"] ["a.rst", "b.txt", "c.rst"]).1
          ∧ f ∉ (validate_files (fun p => p == "a.rst") [".rst"] ["a.rst", "b.txt", "c.rst"]).2)
        ∨ (f ∈ (validate_files (fun p => p == "a.rst") [".rst"] ["a.rst", "b.txt", "c.rst"]).2
          ∧ f ∉ (validate_files (fun p => p == "a.rst") [".rst"] ["a.rst", "b.txt", "c.rst"]).1)) :=
  validate_files_partitions (fun p => p == "a.rst") [".rst"] ["a.rst", "b.txt", "c.rst"]

/-- Observable outcome of running the generated visualization script in
`ResultViewer.run_script`: either the child process exited with a return code
(its combined stdout/stderr text having been captured line by line), or an
exception was raised inside the worker thread. -/
inductive RunOutcome
  | exited (rc : Nat) (output : String)
  | raised (msg : String)
deriving DecidableEq

/-- Observable result of `ResultViewer.run_script` (src/result_viewer.py,
lines 390-434): the final content of the user-facing status bar, whether the
temporary script file still exists after the `finally` cleanup, and the
console log line produced when the cleanup itself fails. -/
structure RunScriptResult where
  status : String
  file_remains : Bool
  cleanup_log : Option String
deriving DecidableEq

/-- Model of `ResultViewer.run_script`: on exit code zero the status is set to
the success text, on non-zero exit to the fixed error text (the captured
output is printed to the console only), and on an exception to the exception
text; the `finally` block then deletes the script file when it exists,
catching a deletion failure and only printing it. -/
def run_script_model (file_present : Bool) (outcome : RunOutcome) (remove_fails : Bool) :
    RunScriptResult :=
  { status :=
      match outcome with
      | .exited rc _ =>
        if rc = 0 then "3D visualization completed successfully"
        else "Error in 3D visualization"
      | .raised m => "Error: " ++ m,
    file_remains := file_present && remove_fails,
    cleanup_log := if file_present && remove_fails then some "DEBUG: Cleanup error" else none }

/-- User-facing completion report of `MechanicalViewer.launch_interactive_viewer`
(src/mechanical_viewer.py, lines 196-210). -/
inductive LaunchReport
  | success
  | failure (msg : String)
deriving DecidableEq

/-- Model of `MechanicalViewer.launch_interactive_viewer` completion handling:
`subprocess.run(check=True, capture_output=True)` raises on a non-zero exit
code, and the handler builds the dialog message as `e.stderr if e.stderr else
e.stdout` (stderr when non-empty, otherwise stdout — the two streams are
captured separately, not combined). -/
def launch_interactive_report (rc : Nat) (stdout stderr : String) : LaunchReport :=
  if rc = 0 then .success
  else .failure (if stderr ≠ "" then stderr else stdout)

/-- Counterexample to Claim C3 as stated: after a non-zero exit with captured
output `"Traceback: boom"`, the result viewer's user-facing status is the fixed
text `"Error in 3D visualization"`; the captured output is not the diagnostic
shown to the user. -/
theorem run_failure_status_not_captured_output :
    (run_script_model true (.exited 1 "Traceback: boom") false).status
        = "Error in 3D visualization"
    ∧ (run_script_model true (.exited 1 "Traceback: boom") false).status
        ≠ "Traceback: boom"
    ∧ launch_interactive_report 1 "out text" "err text" = .failure "err text" := by
  refine ⟨rfl, by decide, rfl⟩

/-- Claim C3 as amended: both launchers report success exactly when the exit
code is zero; on a non-zero exit the mechanical viewer's failure dialog carries
the captured stderr text (or stdout when stderr is empty), while the result
viewer sets the fixed status text `"Error in 3D visualization"` and the
captured output is not part of the user-facing report. -/
theorem launch_success_iff_exit_zero (rc : Nat) (out stdout stderr : String)
    (fp rf : Bool) :
    ((run_script_model fp (.exited rc out) rf).status
        = "3D visualization completed successfully" ↔ rc = 0)
    ∧ (launch_interactive_report rc stdout stderr = .success ↔ rc = 0)
    ∧ (rc ≠ 0 → launch_interactive_report rc stdout stderr
        = .failure (if stderr ≠ "" then stderr else stdout))
    ∧ (rc ≠ 0 → (run_script_model fp (.exited rc out) rf).status
        = "Error in 3D visualization") := by
  by_cases h : rc = 0
  · subst h
    refine ⟨by simp [run_script_model], by simp [launch_interactive_report], ?_, ?_⟩
    · intro h0; exact absurd rfl h0
    · intro h0; exact absurd rfl h0
  · refine ⟨?_, ?_, fun _ => ?_, fun _ => ?_⟩
    · simp only [run_script_model, if_neg h]
      constructor
      · intro he; exact absurd he (by decide)
      · intro he; exact absurd he h
    · simp only [launch_interactive_report, if_neg h]
      constructor
      · intro he; exact absurd he (by simp)
      · intro he; exact absurd he h
    · simp [launch_interactive_report, h]
    · simp [run_script_model, h]

/-- Closed witness for the amended C3 at a non-zero exit code. -/
theorem launch_success_iff_exit_zero_witness :
    ((1 : Nat) ≠ 0)
    ∧ launch_interactive_report 1 "so" "se" = .failure (if "se" ≠ "" then "se" else "so")
    ∧ (run_script_model true (.exited 1 "o") false).status = "Error in 3D visualization" :=
  ⟨by decide,
   (launch_success_iff_exit_zero 1 "o" "so" "se" true false).2.2.1 (by decide),
   (launch_success_iff_exit_zero 1 "o" "so" "se" true false).2.2.2 (by decide)⟩

/-- Claim C4: whatever the outcome of the run (exit code zero, non-zero exit,
or an exception raised during the run), the `finally` cleanup deletes the
temporary script file whenever the deletion call succeeds; a failure of the
deletion itself only produces a console log line and never changes the
user-facing status. -/
theorem run_script_cleanup_always (fp : Bool) (outcome : RunOutcome) (rf : Bool) :
    (run_script_model fp outcome false).file_remains = false
    ∧ (run_script_model fp outcome rf).file_remains = (fp && rf)
    ∧ (run_script_model fp outcome rf).status = (run_script_model fp outcome false).status
    ∧ (run_script_model fp outcome rf).cleanup_log
        = (if fp && rf then some "DEBUG: Cleanup error" else none) := by
  refine ⟨by simp [run_script_model], rfl, rfl, rfl⟩

/-- Model of the path built by `ResultViewer.create_von_mises_script`
(src/result_viewer.py, line 234): `os.path.join(tempfile.gettempdir(),
f"von_mises_fix_{uuid.uuid4()}.py")`, with the freshly drawn uuid string
passed in as `u`. -/
def create_von_mises_script_path (tmpdir u : String) : String :=
  tmpdir ++ "/von_mises_fix_" ++ u ++ ".py"

/-- Model of the path built by `ResultViewer.create_total_deformation_script`
(src/result_viewer.py, line 338), with the freshly drawn uuid string `u`. -/
def create_total_deformation_script_path (tmpdir u : String) : String :=
  tmpdir ++ "/total_deformation_fix_" ++ u ++ ".py"

/-- Middle-segment cancellation for the `dir ++ fixed ++ uuid ++ ext` shape. -/
theorem append_middle_cancel (a p e u1 u2 : String)
    (h : a ++ p ++ u1 ++ e = a ++ p ++ u2 ++ e) : u1 = u2 := by
  have hd := congrArg String.data h
  simp only [String.data_append] at hd
  exact String.ext (List.append_cancel_left (List.append_cancel_right hd))

/-- Claim C5: two launches whose uuid draws differ (uuid4 always renders as a
36-character string) produce distinct temporary script paths, for every
combination of the two script kinds; so no launch reuses a prior launch's
file. -/
theorem script_paths_distinct (tmpdir u1 u2 : String)
    (hne : u1 ≠ u2) (h1 : u1.length = 36) (h2 : u2.length = 36) :
    create_von_mises_script_path tmpdir u1 ≠ create_von_mises_script_path tmpdir u2
    ∧ create_total_deformation_script_path tmpdir u1
        ≠ create_total_deformation_script_path tmpdir u2
    ∧ create_von_mises_script_path tmpdir u1
        ≠ create_total_deformation_script_path tmpdir u2 := by
  refine ⟨?_, ?_, ?_⟩
  · intro h
    exact hne (append_middle_cancel tmpdir "/von_mises_fix_" ".py" u1 u2 h)
  · intro h
    exact hne (append_middle_cancel tmpdir "/total_deformation_fix_" ".py" u1 u2 h)
  · intro h
    have hl := congrArg String.length h
    simp only [create_von_mises_script_path, create_total_deformation_script_path,
      String.length_append, h1, h2] at hl
    have e1 : ("/von_mises_fix_" : String).length = 15 := rfl
    have e2 : ("/total_deformation_fix_" : String).length = 23 := rfl
    rw [e1, e2] at hl
    omega

/-- Closed witness for C5 at two concrete 36-character uuid strings. -/
theorem script_paths_distinct_witness :
    ("00000000-0000-4000-8000-000000000000" : String)
        ≠ "11111111-1111-4111-9111-111111111111"
    ∧ create_von_mises_script_path "/tmp" "00000000-0000-4000-8000-000000000000"
        ≠ create_von_mises_script_path "/tmp" "11111111-1111-4111-9111-111111111111" :=
  ⟨by decide,
   (script_paths_distinct "/tmp" "00000000-0000-4000-8000-000000000000"
      "11111111-1111-4111-9111-111111111111" (by decide) (by decide) (by decide)).1⟩

/-- The argument vector `ResultViewer.run_script` passes to `subprocess.Popen`
(src/result_viewer.py, line 397): `[sys.executable, script_path]` — the
interpreter and the generated script path, nothing else. -/
def run_script_cmd (py script_path : String) : List String :=
  [py, script_path]

/-- Result of the command-line check at the top of `interactive_worker.py`
(lines 27-33): either the usage message is printed and the process exits with
status 1, or the single mechdat path argument is extracted. -/
inductive WorkerCheck
  | usage_exit
  | proceed (mechdat_path : String)
deriving DecidableEq

/-- Model of the `interactive_worker.py` argument check: `sys.argv` must have
exactly two entries (script name and mechdat path), otherwise exit 1. -/
def interactive_worker_check (argv : List String) : WorkerCheck :=
  if argv.length ≠ 2 then .usage_exit else .proceed (argv.getD 1 "")

/-- The argument vector the article snippet example
(src/article_snippets/result_visualization_example.py, line 241) passes to
`subprocess.run`: interpreter, temp script, file path and result type. -/
def snippet_launch_cmd (py temp_script file_path result_type : String) : List String :=
  [py, temp_script, file_path, result_type]

/-- Model of the snippet worker's result-type resolution (line 145 of the
generated text): the second positional argument when present, otherwise the
value embedded at generation time. -/
def snippet_worker_result_type (embedded : String) (argv : List String) : String :=
  if argv.length < 3 then embedded else argv.getD 2 ""

/-- Model of the snippet worker's result selection (lines 155-172 of the
generated text): `"Von Mises Stress"` selects the stress field, every other
value falls into the `else` branch and yields Total Deformation. -/
def snippet_result_title (result_type : String) : String :=
  if result_type = "Von Mises Stress" then "Von Mises Stress" else "Total Deformation"

/-- Counterexample to Claim C6 as stated: the main application's launcher
invokes the generated script with no positional arguments, and the mechanical
worker script exits with the usage error when handed the pair
`(file_path, result_kind)` — it does not accept a result-kind argument. -/
theorem worker_rejects_result_kind_argument :
    interactive_worker_check ["interactive_worker.py", "model.mechdat", "Von Mises Stress"]
        = .usage_exit
    ∧ run_script_cmd "python" "/tmp/von_mises_fix_u.py"
        = ["python", "/tmp/von_mises_fix_u.py"]
    ∧ "Von Mises Stress" ∉ run_script_cmd "python" "/tmp/von_mises_fix_u.py" := by
  refine ⟨rfl, rfl, by decide⟩

/-- Claim C6 as amended: in the main application the generated child script is
invoked with only the interpreter and the script path (file path and result
kind are embedded into the script text at generation time), and the mechanical
worker script accepts exactly one positional argument, exiting with the usage
error on any other count; only the article-snippet example passes
`(file_path, result_kind)` as positional arguments, with any unrecognized
result kind falling back to Total Deformation. -/
theorem generated_script_argument_interface (py sp fp rt n p : String)
    (argv : List String) :
    run_script_cmd py sp = [py, sp]
    ∧ (argv.length ≠ 2 → interactive_worker_check argv = .usage_exit)
    ∧ interactive_worker_check [n, p] = .proceed p
    ∧ snippet_launch_cmd py sp fp rt = [py, sp, fp, rt]
    ∧ snippet_worker_result_type rt [n, fp, rt] = rt
    ∧ (rt ≠ "Von Mises Stress" → snippet_result_title rt = "Total Deformation") := by
  refine ⟨rfl, ?_, rfl, rfl, rfl, ?_⟩
  · intro h
    simp [interactive_worker_check, h]
  · intro h
    simp [snippet_result_title, h]

/-- Closed witness for the amended C6 at concrete argument vectors. -/
theorem generated_script_argument_interface_witness :
    run_script_cmd "python" "/tmp/s.py" = ["python", "/tmp/s.py"]
    ∧ interactive_worker_check ["worker.py", "a.mechdat", "extra"] = .usage_exit
    ∧ interactive_worker_check ["worker.py", "a.mechdat"] = .proceed "a.mechdat"
    ∧ snippet_result_title "anything else" = "Total Deformation" :=
  ⟨(generated_script_argument_interface "python" "/tmp/s.py" "f.rst" "anything else"
      "worker.py" "a.mechdat" ["worker.py", "a.mechdat", "extra"]).1,
   (generated_script_argument_interface "python" "/tmp/s.py" "f.rst" "anything else"
      "worker.py" "a.mechdat" ["worker.py", "a.mechdat", "extra"]).2.1 (by decide),
   (generated_script_argument_interface "python" "/tmp/s.py" "f.rst" "anything else"
      "worker.py" "a.mechdat" ["worker.py", "a.mechdat", "extra"]).2.2.1,
   (generated_script_argument_interface "python" "/tmp/s.py" "f.rst" "anything else"
      "worker.py" "a.mechdat" ["worker.py", "a.mechdat", "extra"]).2.2.2.2.2 (by decide)⟩

/-- Availability of the three dependencies probed by `launch.py`
`check_dependencies` (tkinter, pyvista, ansys-dpf-post). -/
structure LaunchDeps where
  tkinter : Bool
  pyvista : Bool
  dpf_post : Bool

/-- Observable result of `launch.py` `main` (lines 71-138): whether the GUI
subprocess was started, the process exit status, and whether an error line was
printed to the console. -/
structure LaunchExit where
  gui_started : Bool
  exit_code : Nat
  error_printed : Bool
deriving DecidableEq

/-- Model of `launch.py` `main`: when tkinter is missing the function prints an
error and returns (a normal return, so the interpreter exits with status 0);
when `main.py` is missing it likewise prints and returns; otherwise the GUI is
started, a failing GUI subprocess is caught and printed, and the function
returns normally in every case — the exit status is always 0. -/
def launch_main (deps : LaunchDeps) (main_script_exists : Bool) (gui_rc : Nat) : LaunchExit :=
  if deps.tkinter = false then
    { gui_started := false, exit_code := 0, error_printed := true }
  else if main_script_exists = false then
    { gui_started := false, exit_code := 0, error_printed := true }
  else
    { gui_started := true, exit_code := 0, error_printed := gui_rc != 0 }

/-- Counterexample to Claim C8 as stated: with tkinter unavailable the entry
point does exit without starting the GUI, but the process terminates with
status 0, not a non-zero status. -/
theorem tkinter_missing_exit_code_zero :
    (launch_main { tkinter := false, pyvista := true, dpf_post := true } true 0).gui_started
        = false
    ∧ (launch_main { tkinter := false, pyvista := true, dpf_post := true } true 0).exit_code
        = 0 := by
  refine ⟨rfl, rfl⟩

/-- Claim C8 as amended: if tkinter is unavailable at startup, the entry point
prints an error and returns without starting the GUI, and the process
terminates normally with exit status zero (not non-zero). -/
theorem tkinter_missing_no_gui (deps : LaunchDeps) (mse : Bool) (rc : Nat)
    (h : deps.tkinter = false) :
    launch_main deps mse rc
      = { gui_started := false, exit_code := 0, error_printed := true } := by
  simp [launch_main, h]

/-- Closed witness for the amended C8. -/
theorem tkinter_missing_no_gui_witness :
    ({ tkinter := false, pyvista := true, dpf_post := true } : LaunchDeps).tkinter = false
    ∧ launch_main { tkinter := false, pyvista := true, dpf_post := true } true 7
        = { gui_started := false, exit_code := 0, error_printed := true } :=
  ⟨rfl, tkinter_missing_no_gui { tkinter := false, pyvista := true, dpf_post := true } true 7 rfl⟩

/-- The separator `"\\n"` used by `validate_files` to join the rejected
basenames (in the Python source the join separator is the escaped two-character
sequence backslash-n, not a newline). -/
def join_separator : String := "\\n"

/-- Model of Python `sep.join(parts)`. -/
def joinSep (sep : String) : List String → String
  | [] => ""
  | [x] => x
  | x :: xs => x ++ sep ++ joinSep sep xs

/-- The fixed header of the warning message shown by `validate_files`
(src/file_manager.py, line 64), apostrophe written via its code point. -/
def invalid_files_header : String :=
  "The following files are not supported or don" ++ (Char.ofNat 39).toString
    ++ "t exist:\\n"

/-- The body of the single warning dialog: the header followed by the joined
basenames of all rejected paths. -/
def warning_message (fs : String → Bool) (exts : List String) (files : List String) : String :=
  invalid_files_header
    ++ joinSep join_separator (((validate_files fs exts files).2).map basename)

/-- Model of the dialog side effect of `validate_files` (src/file_manager.py,
lines 61-66): when the invalid list is non-empty, exactly one
`messagebox.showwarning` call with title `"Invalid Files"` and the batched
message; otherwise no dialog at all. Returns the list of `(title, message)`
dialogs shown. -/
def validate_files_warnings (fs : String → Bool) (exts : List String)
    (files : List String) : List (String × String) :=
  if (validate_files fs exts files).2.isEmpty then []
  else [("Invalid Files", warning_message fs exts files)]

/-- `n` occurs as a contiguous substring of `h`. -/
def substringOf (n h : String) : Prop :=
  ∃ a b : List Char, h.data = a ++ (n.data ++ b)

/-- Every element of a joined list occurs as a substring of the join. -/
theorem substringOf_joinSep (sep : String) (l : List String) (x : String)
    (hx : x ∈ l) : substringOf x (joinSep sep l) := by
  induction l with
  | nil => cases hx
  | cons y ys ih =>
    cases ys with
    | nil =>
      rcases List.mem_singleton.mp hx with rfl
      exact ⟨[], [], by simp [joinSep]⟩
    | cons z zs =>
      rcases List.mem_cons.mp hx with rfl | hx2
      · refine ⟨[], sep.data ++ (joinSep sep (z :: zs)).data, ?_⟩
        simp [joinSep, String.data_append, List.append_assoc]
      · rcases ih hx2 with ⟨a, b, hab⟩
        refine ⟨y.data ++ sep.data ++ a, b, ?_⟩
        simp [joinSep, String.data_append, hab, List.append_assoc]

/-- A substring of `h` is a substring of `pre ++ h`. -/
theorem substringOf_append_left (pre n h : String) (hs : substringOf n h) :
    substringOf n (pre ++ h) := by
  rcases hs with ⟨a, b, hab⟩
  exact ⟨pre.data ++ a, b, by simp [String.data_append, hab, List.append_assoc]⟩

/-- Claim C7: when at least one path is rejected, exactly one warning dialog is
shown, titled `"Invalid Files"`, whose message is the fixed header followed by
the joined basenames of all rejected paths (each rejected basename occurring in
the message); when no path is rejected, no dialog is shown. -/
theorem single_batched_warning (fs : String → Bool) (exts : List String)
    (files : List String) :
    ((validate_files fs exts files).2 = [] → validate_files_warnings fs exts files = [])
    ∧ ((validate_files fs exts files).2 ≠ [] →
        validate_files_warnings fs exts files
            = [("Invalid Files", warning_message fs exts files)]
        ∧ (validate_files_warnings fs exts files).length = 1)
    ∧ (∀ f, f ∈ (validate_files fs exts files).2 →
        substringOf (basename f) (warning_message fs exts files)) := by
  refine ⟨?_, ?_, ?_⟩
  · intro h
    simp [validate_files_warnings, h]
  · intro h
    have he : (validate_files fs exts files).2.isEmpty = false := by
      simpa [List.isEmpty_iff] using h
    rw [validate_files_warnings, he]
    exact ⟨rfl, rfl⟩
  · intro f hf
    exact substringOf_append_left invalid_files_header (basename f) _
      (substringOf_joinSep join_separator _ (basename f)
        (List.mem_map_of_mem basename hf))

/-- Closed witness for C7: with only `a.rst` existing, validating
`["a.rst", "b.txt"]` against `[".rst"]` rejects `b.txt` and shows exactly one
dialog. -/
theorem single_batched_warning_witness :
    (validate_files (fun p => p == "a.rst") [".rst"] ["a.rst", "b.txt"]).2 ≠ []
    ∧ validate_files_warnings (fun p => p == "a.rst") [".rst"] ["a.rst", "b.txt"]
        = [("Invalid Files",
            warning_message (fun p => p == "a.rst") [".rst"] ["a.rst", "b.txt"])]
    ∧ (validate_files_warnings (fun p => p == "a.rst") [".rst"] ["a.rst", "b.txt"]).length
        = 1
    ∧ substringOf (basename "b.txt")
        (warning_message (fun p => p == "a.rst") [".rst"] ["a.rst", "b.txt"]) :=
  ⟨by decide,
   ((single_batched_warning (fun p => p == "a.rst") [".rst"] ["a.rst", "b.txt"]).2.1
      (by decide)).1,
   ((single_batched_warning (fun p => p == "a.rst") [".rst"] ["a.rst", "b.txt"]).2.1
      (by decide)).2,
   (single_batched_warning (fun p => p == "a.rst") [".rst"] ["a.rst", "b.txt"]).2.2
      "b.txt" (by decide)⟩

/-- Observable state of a `ResultViewer` instance for the launch lifecycle:
the selected file list, the result-type radio value, the log of scripts
generated and run (file path and chosen script kind, in order — one entry per
spawned child process), the number of child processes that have terminated,
the warning/error dialogs shown, and the status bar text. -/
structure RVState where
  selected_files : List String
  result_type : String
  launches : List (String × String)
  completions : Nat
  dialogs : List String
  status : String
deriving DecidableEq

/-- Number of child processes spawned by this viewer instance that have not
yet terminated. -/
def rv_in_flight (s : RVState) : Nat :=
  s.launches.length - s.completions

/-- Model of `ResultViewer.open_interactive` (src/result_viewer.py, lines
206-230): with no selection, show the `"No Files"` warning; with a missing
dependency, show the `"Missing Dependencies"` error; otherwise set the
launching status, generate the script for `selected_files[0]` (the kind
chosen by the radio value, `von_mises` selecting the Von Mises script and any
other value the Total Deformation script) and run it, spawning one child
process. No field records an in-flight launch and none is consulted. -/
def rv_open_interactive (pyvista_available dpf_available : Bool) (s : RVState) : RVState :=
  if s.selected_files.isEmpty then
    { s with dialogs := s.dialogs ++ ["No Files"] }
  else if !(pyvista_available && dpf_available) then
    { s with dialogs := s.dialogs ++ ["Missing Dependencies"] }
  else
    { s with
        status := "Launching 3D interactive viewer...",
        launches := s.launches
          ++ [(s.selected_files.headD "",
               if s.result_type = "von_mises" then "von_mises" else "total_deformation")] }

/-- Model of the worker thread of a launch terminating (the end of
`run_script`'s `run_in_thread`): one more child process has completed and the
status bar is set from its exit code. -/
def rv_process_completed (rc : Nat) (s : RVState) : RVState :=
  { s with
      completions := s.completions + 1,
      status := if rc = 0 then "3D visualization completed successfully"
                else "Error in 3D visualization" }

/-- A ready viewer state with one selected result file and no launch yet. -/
def rv_s0 : RVState :=
  { selected_files := ["model.rst"], result_type := "von_mises", launches := [],
    completions := 0, dialogs := [], status := "Ready" }

/-- Counterexample to Claim C9 as stated: from a state with one launch already
in flight (spawned and not completed), a second trigger spawns a second
concurrent child process — two processes are in flight for the same viewer
instance. -/
theorem second_trigger_spawns_second_process :
    rv_in_flight (rv_open_interactive true true rv_s0) = 1
    ∧ rv_in_flight (rv_open_interactive true true (rv_open_interactive true true rv_s0)) = 2
    ∧ (rv_open_interactive true true (rv_open_interactive true true rv_s0)).launches.length
        = 2 := by
  refine ⟨rfl, rfl, rfl⟩

/-- Claim C9 as amended: the code has no single-flight guard — every trigger
with a non-empty selection and both dependencies available spawns exactly one
new child process, regardless of how many launches are already in flight; a
trigger with empty selection or a missing dependency spawns none. -/
theorem open_interactive_spawn_behavior (pv dpf : Bool) (s : RVState) :
    (s.selected_files = [] → (rv_open_interactive pv dpf s).launches = s.launches)
    ∧ (s.selected_files ≠ [] → (pv && dpf) = false
        → (rv_open_interactive pv dpf s).launches = s.launches)
    ∧ (s.selected_files ≠ [] → (pv && dpf) = true
        → (rv_open_interactive pv dpf s).launches.length = s.launches.length + 1) := by
  refine ⟨?_, ?_, ?_⟩
  · intro h
    simp [rv_open_interactive, h]
  · intro h hdeps
    have he : s.selected_files.isEmpty = false := by
      simpa [List.isEmpty_iff] using h
    simp [rv_open_interactive, he, hdeps]
  · intro h hdeps
    have he : s.selected_files.isEmpty = false := by
      simpa [List.isEmpty_iff] using h
    simp [rv_open_interactive, he, hdeps]

/-- Closed witness for the amended C9: from a state with a launch already in
flight, a further trigger adds exactly one more spawned process. -/
theorem open_interactive_spawn_behavior_witness :
    (rv_open_interactive true true rv_s0).selected_files ≠ []
    ∧ (true && true) = true
    ∧ (rv_open_interactive true true (rv_open_interactive true true rv_s0)).launches.length
        = (rv_open_interactive true true rv_s0).launches.length + 1 :=
  ⟨by decide, by decide,
   (open_interactive_spawn_behavior true true (rv_open_interactive true true rv_s0)).2.2
      (by decide) (by decide)⟩

/-- Claim C10: with a non-empty selection and available dependencies, the
launch generates and runs a script for exactly the first selected file
(`selected_files[0]`), for the script kind chosen by the radio value; no other
selected file is launched and the selected list itself is unchanged. -/
theorem open_interactive_uses_first_file (pv dpf : Bool) (s : RVState)
    (hne : s.selected_files ≠ []) (hdeps : (pv && dpf) = true) :
    (rv_open_interactive pv dpf s).launches
        = s.launches ++ [(s.selected_files.headD "",
            if s.result_type = "von_mises" then "von_mises" else "total_deformation")]
    ∧ (rv_open_interactive pv dpf s).selected_files = s.selected_files := by
  have he : s.selected_files.isEmpty = false := by
    simpa [List.isEmpty_iff] using hne
  refine ⟨?_, ?_⟩ <;> simp [rv_open_interactive, he, hdeps]

/-- Closed witness for C10 at the ready state with files
`["a.rst", "b.rst"]`. -/
theorem open_interactive_uses_first_file_witness :
    ((["a.rst", "b.rst"] : List String) ≠ [])
    ∧ (rv_open_interactive true true
        { selected_files := ["a.rst", "b.rst"], result_type := "von_mises",
          launches := [], completions := 0, dialogs := [], status := "Ready" }).launches
        = [("a.rst", "von_mises")]
    ∧ (rv_open_interactive true true
        { selected_files := ["a.rst", "b.rst"], result_type := "von_mises",
          launches := [], completions := 0, dialogs := [], status := "Ready" }).selected_files
        = ["a.rst", "b.rst"] :=
  ⟨by decide,
   (open_interactive_uses_first_file true true
      { selected_files := ["a.rst", "b.rst"], result_type := "von_mises",
        launches := [], completions := 0, dialogs := [], status := "Ready" }
      (by decide) (by decide)).1,
   (open_interactive_uses_first_file true true
      { selected_files := ["a.rst", "b.rst"], result_type := "von_mises",
        launches := [], completions := 0, dialogs := [], status := "Ready" }
      (by decide) (by decide)).2⟩
